import Mathlib

/-!
Shallow embedding of the AttendPro domain core (Express + Mongoose app).

Sources embedded here:
  - src/models/user.js, src/models/class.js, src/models/student.js
    (schemas and their pre-save / pre-validate hooks);
  - src/middleware/auth.js (hasClassAccess, hasClassManagementAccess);
  - src/utils/logger.js route handlers:
      POST /register                                   (lines 515-579)
      POST /classdetail/:id/addstudent                 (lines 864-903)
      POST /classdetail/:id/addbulkstudents            (lines 906-970)
      POST /classdetail/:classId/deletestudent/:sid    (lines 973-993)
      POST /classdetail/:classId/markattendance-bulk   (lines 1213-1259)
      POST /join-class                                 (lines 785-831)
      POST /createclass                                (lines 651-678)
      GET  /student-attendance-summary                 (lines 1809-1882)

Mongo object ids are modelled as naturals handed out by a counter in the
database state; dates are modelled at day granularity (every attendance
insert in the source uses midnight of the submitted YYYY-MM-DD string and
the bulk delete covers exactly that day); the bcrypt password hook and
session plumbing are external collaborators and are not modelled.
-/

namespace AttendPro

/-- UserRec mirrors the User schema of src/models/user.js (fields the
domain logic reads; CREATEDAT/LASTLOGIN/PROFILEPIC are unused by the
embedded handlers). -/
structure UserRec where
  id : Nat
  USERNAME : String
  EMAIL : String
  PASSWORD : String
  FULLNAME : String
  ROLE : String
  ISACTIVE : Bool
deriving DecidableEq

/-- ClassRec mirrors the Class schema of src/models/class.js. -/
structure ClassRec where
  id : Nat
  CLASSNAME : String
  ROOMNO : Nat
  SUBJECT : String
  CREATEDBY : Nat
  TEACHERS : List Nat
  CLASSCODE : String
  ISACTIVE : Bool
  DESCRIPTION : String
deriving DecidableEq

/-- StudentRec mirrors the Student schema of src/models/student.js
(an enrollment row: one per (roll number, class) membership). -/
structure StudentRec where
  id : Nat
  NAME : String
  ROLLNO : Nat
  classId : Nat
  CLASSES : List Nat
  EMAIL : Option String
deriving DecidableEq

/-- AttendanceRec mirrors the Attendance documents created by the
markattendance-bulk handler: studentId, classId, status, lectures, date. -/
structure AttendanceRec where
  studentId : Nat
  classId : Nat
  date : Nat
  status : String
  lectures : Nat
deriving DecidableEq

/-- The backing store: one collection per model plus a fresh-id counter
standing in for Mongo object-id generation. -/
structure DB where
  users : List UserRec
  classes : List ClassRec
  students : List StudentRec
  attendance : List AttendanceRec
  nextId : Nat
deriving DecidableEq

/-- Class.findById. -/
def findClass (db : DB) (cid : Nat) : Option ClassRec :=
  db.classes.find? (fun c => c.id == cid)

/-- Student.findOne({ classId, ROLLNO }). -/
def findStudentByRoll (db : DB) (cid roll : Nat) : Option StudentRec :=
  db.students.find? (fun s => s.classId == cid && s.ROLLNO == roll)

/-- The creator-or-admin check the logger.js handlers repeat inline:
`req.user.ROLE !== 'admin' && foundClass.CREATEDBY !== req.user._id`
inverted to an allow predicate. -/
def creatorOrAdmin (u : UserRec) (c : ClassRec) : Bool :=
  u.ROLE == "admin" || c.CREATEDBY == u.id

/-- Student pre-save hook (src/models/student.js lines 65-73): on create
or classId change, push classId into CLASSES when missing. -/
def saveHookStudent (s : StudentRec) : StudentRec :=
  if s.classId ∈ s.CLASSES then s
  else { s with CLASSES := s.CLASSES ++ [s.classId] }

/-! ## Bulk attendance marking (logger.js lines 1213-1259) -/

inductive MarkResult where
  | classNotFound
  | accessDenied
  | success
deriving DecidableEq

/-- JavaScript `v || 'absent'`: undefined and the empty string are both
falsy and fall back to absent. -/
def statusOrAbsent (v : Option String) : String :=
  match v with
  | none => "absent"
  | some s => if s = "" then "absent" else s

/-- Students enrolled in a class: Student.find({ classId }). -/
def enrolled (db : DB) (cid : Nat) : List StudentRec :=
  db.students.filter (fun s => s.classId == cid)

/-- One attendance document as built inside the handler's for-loop:
status from req.body[attendance_<id>] with absent default. -/
def mkAttendance (cid d lect : Nat) (body : Nat → Option String)
    (s : StudentRec) : AttendanceRec :=
  { studentId := s.id, classId := cid, date := d
    status := statusOrAbsent (body s.id), lectures := lect }

/-- The full insert set of one bulk invocation: one document per enrolled
student. -/
def bulkRecords (db : DB) (cid d lect : Nat) (body : Nat → Option String) :
    List AttendanceRec :=
  (enrolled db cid).map (mkAttendance cid d lect body)

/-- POST /classdetail/:classId/markattendance-bulk: find class, check
creator-or-admin, delete the day's records for the class, insert one
record per enrolled student. -/
def markattendanceBulk (db : DB) (actor : UserRec) (cid d lect : Nat)
    (body : Nat → Option String) : MarkResult × DB :=
  match findClass db cid with
  | none => (MarkResult.classNotFound, db)
  | some c =>
    if creatorOrAdmin actor c then
      (MarkResult.success,
        { db with attendance :=
            db.attendance.filter (fun r => !(r.classId == cid && r.date == d))
              ++ bulkRecords db cid d lect body })
    else (MarkResult.accessDenied, db)

/-- Read-back projection: the attendance records stored for one
(class, date). -/
def attendanceFor (db : DB) (cid d : Nat) : List AttendanceRec :=
  db.attendance.filter (fun r => r.classId == cid && r.date == d)

/-! ## Adding a single student (logger.js lines 864-903) -/

inductive AddResult where
  | classNotFound
  | accessDenied
  | duplicateRoll
  | added (s : StudentRec)
deriving DecidableEq

/-- POST /classdetail/:id/addstudent: find class, creator-or-admin check,
reject when a student with the same roll number already exists in the
class, otherwise save a new Student (running the pre-save hook, which
seeds CLASSES with the primary classId). -/
def addstudent (db : DB) (actor : UserRec) (cid : Nat) (name : String)
    (roll : Nat) : AddResult × DB :=
  match findClass db cid with
  | none => (AddResult.classNotFound, db)
  | some c =>
    if creatorOrAdmin actor c then
      match findStudentByRoll db cid roll with
      | some _ => (AddResult.duplicateRoll, db)
      | none =>
        let s := saveHookStudent
          { id := db.nextId, NAME := name, ROLLNO := roll, classId := cid
            CLASSES := [], EMAIL := none }
        (AddResult.added s,
          { db with students := db.students ++ [s], nextId := db.nextId + 1 })
    else (AddResult.accessDenied, db)

/-! ## Bulk student add (logger.js lines 906-970) -/

/-- One input row of the bulk-add request body. -/
structure BulkStudentInput where
  NAME : String
  ROLLNO : Nat
deriving DecidableEq

/-- Per-batch accumulated response: the addedStudents array and the
errors array of the handler. Duplicate rows push the message
`Roll number <n> already exists`; both arrays are returned with
success: true. -/
structure BulkAddReply where
  addedStudents : List StudentRec
  errors : List String
deriving DecidableEq

/-- The duplicate-row message pushed by the handler. -/
def dupMessage (roll : Nat) : String :=
  "Roll number " ++ toString roll ++ " already exists"

/-- The for-loop of the bulk-add handler: each row is checked against the
live students collection (so earlier rows of the same batch count),
duplicates push an error message and continue, fresh rows are saved. -/
def addBulkLoop (cid : Nat) (rows : List BulkStudentInput) (db : DB)
    (acc : BulkAddReply) : BulkAddReply × DB :=
  match rows with
  | [] => (acc, db)
  | row :: rest =>
    match findStudentByRoll db cid row.ROLLNO with
    | some _ =>
      addBulkLoop cid rest db
        { acc with errors := acc.errors ++ [dupMessage row.ROLLNO] }
    | none =>
      let s := saveHookStudent
        { id := db.nextId, NAME := row.NAME, ROLLNO := row.ROLLNO
          classId := cid, CLASSES := [], EMAIL := none }
      addBulkLoop cid rest
        { db with students := db.students ++ [s], nextId := db.nextId + 1 }
        { acc with addedStudents := acc.addedStudents ++ [s] }

inductive BulkAddResult where
  | classNotFound
  | accessDenied
  | ok (reply : BulkAddReply)
deriving DecidableEq

/-- POST /classdetail/:id/addbulkstudents: find class, creator-or-admin
check, then the independent per-row loop; the response is success: true
with per-row outcomes, never an overall failure for a bad row. -/
def addbulkstudents (db : DB) (actor : UserRec) (cid : Nat)
    (rows : List BulkStudentInput) : BulkAddResult × DB :=
  match findClass db cid with
  | none => (BulkAddResult.classNotFound, db)
  | some c =>
    if creatorOrAdmin actor c then
      let r := addBulkLoop cid rows db { addedStudents := [], errors := [] }
      (BulkAddResult.ok r.1, r.2)
    else (BulkAddResult.accessDenied, db)

/-! ## Deleting a student (logger.js lines 973-993) -/

inductive DeleteResult where
  | classNotFound
  | accessDenied
  | deleted
deriving DecidableEq

/-- POST /classdetail/:classId/deletestudent/:studentId: find class,
creator-or-admin check, then Student.findByIdAndDelete(studentId).
The handler touches no Attendance document. -/
def deletestudent (db : DB) (actor : UserRec) (cid sid : Nat) :
    DeleteResult × DB :=
  match findClass db cid with
  | none => (DeleteResult.classNotFound, db)
  | some c =>
    if creatorOrAdmin actor c then
      (DeleteResult.deleted,
        { db with students := db.students.filter (fun s => !(s.id == sid)) })
    else (DeleteResult.accessDenied, db)

/-! ## Registration (logger.js lines 515-579) -/

structure RegInput where
  USERNAME : String
  EMAIL : String
  PASSWORD : String
  CONFIRMPASSWORD : String
  FULLNAME : String
  ROLE : String
deriving DecidableEq

inductive RegResult where
  | errorMsg (m : String)
  | success
deriving DecidableEq

/-- POST /register: password confirmation, length, uniqueness and role
checks in source order; only ROLE = teacher passes, and the stored user
is created with ROLE forced to teacher. The bcrypt pre-save hash is an
external collaborator and is not modelled. -/
def register (db : DB) (i : RegInput) : RegResult × DB :=
  if i.PASSWORD ≠ i.CONFIRMPASSWORD then
    (RegResult.errorMsg "Passwords do not match", db)
  else if i.PASSWORD.length < 6 then
    (RegResult.errorMsg "Password must be at least 6 characters long", db)
  else if (db.users.find? (fun u =>
      u.USERNAME == i.USERNAME || u.EMAIL == i.EMAIL)).isSome then
    (RegResult.errorMsg "Username or email already exists", db)
  else if i.ROLE ≠ "teacher" then
    (RegResult.errorMsg
      "Only teachers can register through this form. Admin access is restricted.",
      db)
  else
    (RegResult.success,
      { db with
        users := db.users ++
          [{ id := db.nextId, USERNAME := i.USERNAME, EMAIL := i.EMAIL
             PASSWORD := i.PASSWORD, FULLNAME := i.FULLNAME
             ROLE := "teacher", ISACTIVE := true }]
        nextId := db.nextId + 1 })

/-! ## Class code generation (src/models/class.js lines 70-107) -/

/-- The sampling alphabet of the pre-validate hook. -/
def codeChars : List Char :=
  "ABCDEFGHIJKLMNOPQRSTUVWXYZ0123456789".toList

/-- One attempt of the generator: six draws of
characters.charAt(Math.floor(Math.random() * characters.length)),
each draw modelled by a natural reduced mod the alphabet size. -/
def mkCode (draws : List Nat) : String :=
  String.mk (((draws.take 6) ++ List.replicate (6 - draws.length) 0).map
    (fun r => codeChars.getD (r % codeChars.length) 'A'))

/-- Codes already taken: the CLASSCODE unique index the retry loop
queries through Class.findOne. -/
def takenCodes (db : DB) : List String :=
  db.classes.map (fun c => c.CLASSCODE)

/-- The while-not-unique retry loop, driven by a finite stream of
attempts (none models a loop that has not yet found a free code). -/
def genUniqueCode (taken : List String) : List (List Nat) → Option String
  | [] => none
  | draws :: rest =>
    let code := mkCode draws
    if code ∈ taken then genUniqueCode taken rest else some code

inductive CreateClassResult where
  | ok (c : ClassRec)
  | stillSampling
deriving DecidableEq

/-- The class document built by POST /createclass before the hook runs
the code-sampling step: creator set as CREATEDBY and sole teacher. -/
def mkClassRec (db : DB) (actor : UserRec) (name : String) (room : Nat)
    (subject descr code : String) : ClassRec :=
  { id := db.nextId, CLASSNAME := name, ROOMNO := room
    SUBJECT := subject, CREATEDBY := actor.id, TEACHERS := [actor.id]
    CLASSCODE := code, ISACTIVE := true, DESCRIPTION := descr }

/-- POST /createclass together with the schema pre-validate hook: the
new document has no CLASSCODE, so the hook samples one that no existing
class holds, and seeds TEACHERS with the creator. -/
def createclass (db : DB) (actor : UserRec) (name : String) (room : Nat)
    (subject descr : String) (attempts : List (List Nat)) :
    CreateClassResult × DB :=
  match genUniqueCode (takenCodes db) attempts with
  | none => (CreateClassResult.stillSampling, db)
  | some code =>
    let c := mkClassRec db actor name room subject descr code
    (CreateClassResult.ok c,
      { db with classes := db.classes ++ [c], nextId := db.nextId + 1 })

/-! ## Join class by code (logger.js lines 785-831) -/

inductive JoinResult where
  | missingCode
  | invalidCode
  | alreadyTeacher
  | joined (cid : Nat)
deriving DecidableEq

/-- POST /join-class: find the class by upper-cased code; a member gets
a warning, otherwise the actor is appended to TEACHERS. -/
def joinclass (db : DB) (actor : UserRec) (code : String) : JoinResult × DB :=
  if code = "" then (JoinResult.missingCode, db)
  else
    match db.classes.find? (fun c => c.CLASSCODE == code.toUpper) with
    | none => (JoinResult.invalidCode, db)
    | some c =>
      if actor.id ∈ c.TEACHERS then (JoinResult.alreadyTeacher, db)
      else
        (JoinResult.joined c.id,
          { db with classes := db.classes.map (fun k =>
              if k.id == c.id then { k with TEACHERS := k.TEACHERS ++ [actor.id] }
              else k) })

/-! ## Class access middleware (src/middleware/auth.js lines 155-262) -/

inductive AccessDecision where
  | badRequest
  | notFound
  | forbidden
  | allowed (c : ClassRec)
deriving DecidableEq

/-- hasClassAccess (auth.js lines 155-203): missing id is a 400,
unknown class a 404, admin passes, a listed teacher passes, everyone
else receives a 403 access-denied page. -/
def hasClassAccess (db : DB) (u : UserRec) (cid? : Option Nat) :
    AccessDecision :=
  match cid? with
  | none => AccessDecision.badRequest
  | some cid =>
    match findClass db cid with
    | none => AccessDecision.notFound
    | some c =>
      if u.ROLE = "admin" then AccessDecision.allowed c
      else if u.id ∈ c.TEACHERS then AccessDecision.allowed c
      else AccessDecision.forbidden

/-- hasClassManagementAccess (auth.js lines 206-262): same shape with a
student 403 inserted before the admin check. -/
def hasClassManagementAccess (db : DB) (u : UserRec) (cid? : Option Nat) :
    AccessDecision :=
  match cid? with
  | none => AccessDecision.badRequest
  | some cid =>
    match findClass db cid with
    | none => AccessDecision.notFound
    | some c =>
      if u.ROLE = "student" then AccessDecision.forbidden
      else if u.ROLE = "admin" then AccessDecision.allowed c
      else if u.id ∈ c.TEACHERS then AccessDecision.allowed c
      else AccessDecision.forbidden

/-! ## Student attendance summary arithmetic (logger.js lines 1809-1882) -/

/-- JavaScript Number.prototype.toFixed(2) on the nonnegative values the
summary produces: round half away from zero at the second decimal,
read back as the decimal value the string comparison coerces to. -/
def toFixed2 (q : ℚ) : ℚ := (round (q * 100) : ℚ) / 100

/-- The percentage the handler computes for one class row:
totalCount > 0 ? ((presentCount / totalCount) * 100).toFixed(2) : 0. -/
def pctOf (present total : Nat) : ℚ :=
  if 0 < total then toFixed2 ((present : ℚ) * 100 / (total : ℚ)) else 0

/-- The band: percentage >= 75 ? 'good' : percentage >= 60 ? 'warning'
: 'danger'. -/
def statusOf (p : ℚ) : String :=
  if 75 ≤ p then "good" else if 60 ≤ p then "warning" else "danger"

/-- Attendance.find({ studentId }) of the summary loop. -/
def recordsOf (db : DB) (sid : Nat) : List AttendanceRec :=
  db.attendance.filter (fun r => r.studentId == sid)

/-- presentCount of the summary loop. -/
def presentCount (db : DB) (sid : Nat) : Nat :=
  ((recordsOf db sid).filter (fun r => r.status == "present")).length

/-- totalCount of the summary loop. -/
def totalCount (db : DB) (sid : Nat) : Nat :=
  (recordsOf db sid).length

/-- The per-class percentage the summary page shows for one enrollment
row. -/
def summaryPct (db : DB) (sid : Nat) : ℚ :=
  pctOf (presentCount db sid) (totalCount db sid)

/-- The per-class status band the summary page shows for one enrollment
row. -/
def summaryBand (db : DB) (sid : Nat) : String :=
  statusOf (summaryPct db sid)

/-! ## Concrete fixtures for witnesses -/

/-- A teacher account used by concrete test databases. -/
def tOne : UserRec :=
  { id := 1, USERNAME := "t", EMAIL := "t@x.y", PASSWORD := "secret",
    FULLNAME := "T", ROLE := "teacher", ISACTIVE := true }

/-- A second teacher account, not a member of the sample class. -/
def tTwo : UserRec :=
  { id := 9, USERNAME := "u", EMAIL := "u@x.y", PASSWORD := "secret",
    FULLNAME := "U", ROLE := "teacher", ISACTIVE := true }

/-- The sample class created by tOne. -/
def mathClass : ClassRec :=
  { id := 2, CLASSNAME := "Math101", ROOMNO := 12, SUBJECT := "Math",
    CREATEDBY := 1, TEACHERS := [1], CLASSCODE := "ABC123",
    ISACTIVE := true, DESCRIPTION := "" }

/-- An enrollment row in the sample class. -/
def asha : StudentRec :=
  { id := 3, NAME := "Asha", ROLLNO := 1, classId := 2, CLASSES := [2],
    EMAIL := none }

/-- A second enrollment row in the sample class. -/
def bo : StudentRec :=
  { id := 4, NAME := "Bo", ROLLNO := 2, classId := 2, CLASSES := [2],
    EMAIL := none }

/-- The sample database: one teacher, one class, two students, no
attendance yet. -/
def sampleDB : DB :=
  { users := [tOne], classes := [mathClass], students := [asha, bo],
    attendance := [], nextId := 5 }

/-! ## Helper lemmas -/

lemma filter_not_filter (l : List AttendanceRec) (p : AttendanceRec → Bool) :
    (l.filter (fun r => !(p r))).filter p = [] := by
  rw [List.filter_eq_nil_iff]
  intro a ha
  rcases List.mem_filter.mp ha with ⟨_, hnp⟩
  simp only [Bool.not_eq_true'] at hnp
  simp [hnp]

lemma bulkRecords_classId_date {db : DB} {cid d l : Nat}
    {m : Nat → Option String} {r : AttendanceRec}
    (hr : r ∈ bulkRecords db cid d l m) : r.classId = cid ∧ r.date = d := by
  rcases List.mem_map.mp hr with ⟨s, _, rfl⟩
  exact ⟨rfl, rfl⟩

lemma bulkRecords_filter_self (db : DB) (cid d l : Nat)
    (m : Nat → Option String) :
    (bulkRecords db cid d l m).filter
      (fun r => r.classId == cid && r.date == d) = bulkRecords db cid d l m := by
  rw [List.filter_eq_self]
  intro r hr
  rcases bulkRecords_classId_date hr with ⟨h1, h2⟩
  simp [h1, h2]

lemma markBulk_eq {db : DB} {a : UserRec} {cid : Nat} {c : ClassRec}
    (d l : Nat) (m : Nat → Option String)
    (hfc : findClass db cid = some c) (hcr : creatorOrAdmin a c = true) :
    markattendanceBulk db a cid d l m =
      (MarkResult.success,
        { db with attendance :=
            db.attendance.filter (fun r => !(r.classId == cid && r.date == d))
              ++ bulkRecords db cid d l m }) := by
  simp [markattendanceBulk, hfc, hcr]

lemma markBulk_success_inv {db : DB} {a : UserRec} {cid d l : Nat}
    {m : Nat → Option String}
    (h : (markattendanceBulk db a cid d l m).1 = MarkResult.success) :
    ∃ c, findClass db cid = some c ∧ creatorOrAdmin a c = true := by
  rcases hfc : findClass db cid with _ | c
  · simp [markattendanceBulk, hfc] at h
  · by_cases hcr : creatorOrAdmin a c = true
    · exact ⟨c, rfl, hcr⟩
    · simp [markattendanceBulk, hfc, hcr] at h

lemma markBulk_students (db : DB) (a : UserRec) (cid d l : Nat)
    (m : Nat → Option String) :
    ((markattendanceBulk db a cid d l m).2).students = db.students := by
  rcases hfc : findClass db cid with _ | c
  · simp [markattendanceBulk, hfc]
  · by_cases hcr : creatorOrAdmin a c = true
    · simp [markattendanceBulk, hfc, hcr]
    · simp [markattendanceBulk, hfc, hcr]

lemma markBulk_classes (db : DB) (a : UserRec) (cid d l : Nat)
    (m : Nat → Option String) :
    ((markattendanceBulk db a cid d l m).2).classes = db.classes := by
  rcases hfc : findClass db cid with _ | c
  · simp [markattendanceBulk, hfc]
  · by_cases hcr : creatorOrAdmin a c = true
    · simp [markattendanceBulk, hfc, hcr]
    · simp [markattendanceBulk, hfc, hcr]

lemma findClass_congr {db db' : DB} (h : db'.classes = db.classes) (cid : Nat) :
    findClass db' cid = findClass db cid := by
  simp [findClass, h]

lemma enrolled_congr {db db' : DB} (h : db'.students = db.students) (cid : Nat) :
    enrolled db' cid = enrolled db cid := by
  simp [enrolled, h]

lemma attendanceFor_after_markBulk {db : DB} {a : UserRec} {cid : Nat}
    {c : ClassRec} (d l : Nat) (m : Nat → Option String)
    (hfc : findClass db cid = some c) (hcr : creatorOrAdmin a c = true) :
    attendanceFor ((markattendanceBulk db a cid d l m).2) cid d
      = bulkRecords db cid d l m := by
  rw [markBulk_eq d l m hfc hcr]
  simp only [attendanceFor, List.filter_append, filter_not_filter,
    bulkRecords_filter_self, List.nil_append]

/-! ## Claim theorems -/

/-- C1: a successful bulk attendance mark deletes the day's records for
the class and inserts exactly one record per enrolled student; hence a
re-invocation for the same (class, date) with a different status map and
lecture count succeeds again and leaves exactly the second invocation's
record set for that date, one record per enrolled student, with no
duplicate or stale records from the first invocation. -/
theorem markBulk_reinvocation_replaces (db : DB) (a : UserRec)
    (cid d lect1 lect2 : Nat) (m1 m2 : Nat → Option String)
    (h : (markattendanceBulk db a cid d lect1 m1).1 = MarkResult.success) :
    (markattendanceBulk (markattendanceBulk db a cid d lect1 m1).2
        a cid d lect2 m2).1 = MarkResult.success ∧
    attendanceFor
        (markattendanceBulk (markattendanceBulk db a cid d lect1 m1).2
          a cid d lect2 m2).2 cid d
      = (enrolled db cid).map (mkAttendance cid d lect2 m2) := by
  rcases markBulk_success_inv h with ⟨c, hfc, hcr⟩
  have hdb1c : findClass (markattendanceBulk db a cid d lect1 m1).2 cid = some c := by
    rw [findClass_congr (markBulk_classes db a cid d lect1 m1) cid]; exact hfc
  constructor
  · rw [markBulk_eq d lect2 m2 hdb1c hcr]
  · rw [attendanceFor_after_markBulk d lect2 m2 hdb1c hcr]
    show ((enrolled _ cid).map _) = _
    rw [enrolled_congr (markBulk_students db a cid d lect1 m1) cid]

/-- C1 witness: the sample database bulk-marked twice for the same date
with different maps; the second invocation succeeds and its record set
replaces the first. -/
theorem markBulk_reinvocation_replaces_witness :
    (markattendanceBulk sampleDB tOne 2 20240110 1
        (fun sid => if sid = 3 then some "present" else none)).1
      = MarkResult.success ∧
    (markattendanceBulk
        (markattendanceBulk sampleDB tOne 2 20240110 1
          (fun sid => if sid = 3 then some "present" else none)).2
        tOne 2 20240110 2 (fun _ => none)).1 = MarkResult.success ∧
    attendanceFor
        (markattendanceBulk
          (markattendanceBulk sampleDB tOne 2 20240110 1
            (fun sid => if sid = 3 then some "present" else none)).2
          tOne 2 20240110 2 (fun _ => none)).2 2 20240110
      = (enrolled sampleDB 2).map (mkAttendance 2 20240110 2 (fun _ => none)) := by
  refine ⟨by decide, ?_, ?_⟩
  · exact (markBulk_reinvocation_replaces sampleDB tOne 2 20240110 1 2 _ _
      (by decide)).1
  · exact (markBulk_reinvocation_replaces sampleDB tOne 2 20240110 1 2 _ _
      (by decide)).2

/-- C2: bulk-marking with an empty per-student status map (no
attendance_<id> keys in the body) on a class with at least one enrolled
student creates exactly one record per enrolled student for that date,
every one with status absent. -/
theorem markBulk_emptyMap_allAbsent (db : DB) (a : UserRec)
    (cid d lect : Nat)
    (h : (markattendanceBulk db a cid d lect (fun _ => none)).1
      = MarkResult.success)
    (hne : enrolled db cid ≠ []) :
    attendanceFor (markattendanceBulk db a cid d lect (fun _ => none)).2 cid d
        = (enrolled db cid).map (mkAttendance cid d lect (fun _ => none)) ∧
    (attendanceFor (markattendanceBulk db a cid d lect (fun _ => none)).2
        cid d).length = (enrolled db cid).length ∧
    attendanceFor (markattendanceBulk db a cid d lect (fun _ => none)).2
        cid d ≠ [] ∧
    ∀ r ∈ attendanceFor
        (markattendanceBulk db a cid d lect (fun _ => none)).2 cid d,
      r.status = "absent" := by
  rcases markBulk_success_inv h with ⟨c, hfc, hcr⟩
  have heq := attendanceFor_after_markBulk d lect (fun _ => none) hfc hcr
  have hmap : attendanceFor
      (markattendanceBulk db a cid d lect (fun _ => none)).2 cid d
      = (enrolled db cid).map (mkAttendance cid d lect (fun _ => none)) := heq
  refine ⟨hmap, ?_, ?_, ?_⟩
  · rw [hmap, List.length_map]
  · rw [hmap]
    intro hnil
    exact hne (List.map_eq_nil_iff.mp hnil)
  · intro r hr
    rw [hmap] at hr
    rcases List.mem_map.mp hr with ⟨s, _, rfl⟩
    rfl

/-- C2 witness: the sample database bulk-marked with an empty map; both
students end up absent for the date. -/
theorem markBulk_emptyMap_allAbsent_witness :
    (markattendanceBulk sampleDB tOne 2 20240110 1 (fun _ => none)).1
      = MarkResult.success ∧
    enrolled sampleDB 2 ≠ [] ∧
    ∀ r ∈ attendanceFor
        (markattendanceBulk sampleDB tOne 2 20240110 1 (fun _ => none)).2
        2 20240110,
      r.status = "absent" := by
  refine ⟨by decide, by decide, ?_⟩
  exact (markBulk_emptyMap_allAbsent sampleDB tOne 2 20240110 1
    (by decide) (by decide)).2.2.2

/-! ## Enrollment uniqueness -/

/-- At most one enrollment row per (roll number, class) pair: the
invariant backed by the unique compound index of
src/models/student.js line 63. -/
def rollsUnique (db : DB) : Prop :=
  db.students.Pairwise
    (fun s t => ¬(s.ROLLNO = t.ROLLNO ∧ s.classId = t.classId))

lemma saveHookStudent_classId (s : StudentRec) :
    (saveHookStudent s).classId = s.classId := by
  unfold saveHookStudent; split <;> rfl

lemma saveHookStudent_ROLLNO (s : StudentRec) :
    (saveHookStudent s).ROLLNO = s.ROLLNO := by
  unfold saveHookStudent; split <;> rfl

lemma addstudent_added_inv {db : DB} {a : UserRec} {cid : Nat} {n : String}
    {roll : Nat} {s : StudentRec}
    (h : (addstudent db a cid n roll).1 = AddResult.added s) :
    ∃ c, findClass db cid = some c ∧ creatorOrAdmin a c = true ∧
      findStudentByRoll db cid roll = none ∧
      s = saveHookStudent
        { id := db.nextId, NAME := n, ROLLNO := roll, classId := cid
          CLASSES := [], EMAIL := none } ∧
      (addstudent db a cid n roll).2 =
        { db with students := db.students ++ [s], nextId := db.nextId + 1 } := by
  rcases hfc : findClass db cid with _ | c
  · simp [addstudent, hfc] at h
  · by_cases hcr : creatorOrAdmin a c = true
    · rcases hdup : findStudentByRoll db cid roll with _ | t
      · refine ⟨c, rfl, hcr, rfl, ?_, ?_⟩
        · have := h
          simp [addstudent, hfc, hcr, hdup] at this
          exact this.symm
        · have hs : s = saveHookStudent
              { id := db.nextId, NAME := n, ROLLNO := roll, classId := cid
                CLASSES := [], EMAIL := none } := by
            have := h
            simp [addstudent, hfc, hcr, hdup] at this
            exact this.symm
          simp [addstudent, hfc, hcr, hdup, hs]
      · simp [addstudent, hfc, hcr, hdup] at h
    · simp [addstudent, hfc, hcr] at h

lemma addstudent_dup_eq {db : DB} {a : UserRec} {cid : Nat} {n : String}
    {roll : Nat} {c : ClassRec} {s : StudentRec}
    (hfc : findClass db cid = some c) (hcr : creatorOrAdmin a c = true)
    (hdup : findStudentByRoll db cid roll = some s) :
    addstudent db a cid n roll = (AddResult.duplicateRoll, db) := by
  simp [addstudent, hfc, hcr, hdup]

lemma addstudent_not_added_unchanged {db : DB} {a : UserRec} {cid : Nat}
    {n : String} {roll : Nat}
    (h : ∀ s, (addstudent db a cid n roll).1 ≠ AddResult.added s) :
    (addstudent db a cid n roll).2 = db := by
  rcases hfc : findClass db cid with _ | c
  · simp [addstudent, hfc]
  · by_cases hcr : creatorOrAdmin a c = true
    · rcases hdup : findStudentByRoll db cid roll with _ | t
      · exact absurd (by simp [addstudent, hfc, hcr, hdup] :
          (addstudent db a cid n roll).1 = AddResult.added (saveHookStudent
            { id := db.nextId, NAME := n, ROLLNO := roll, classId := cid
              CLASSES := [], EMAIL := none })) (h _)
      · simp [addstudent, hfc, hcr, hdup]
    · simp [addstudent, hfc, hcr]

/-- C3: the (roll number, class) uniqueness invariant is preserved by
addstudent, and a second addstudent with a roll number already present
in the class answers the duplicate-enrollment error and leaves the
student collection unchanged. -/
theorem addstudent_duplicate_enrollment (db : DB) (a : UserRec) (cid : Nat)
    (n n2 : String) (roll : Nat) (s : StudentRec)
    (h : (addstudent db a cid n roll).1 = AddResult.added s) :
    (addstudent (addstudent db a cid n roll).2 a cid n2 roll).1
        = AddResult.duplicateRoll ∧
    (addstudent (addstudent db a cid n roll).2 a cid n2 roll).2
        = (addstudent db a cid n roll).2 ∧
    (rollsUnique db → rollsUnique (addstudent db a cid n roll).2) := by
  rcases addstudent_added_inv h with ⟨c, hfc, hcr, hdup, hs, hdb⟩
  have hclsid : s.classId = cid := by rw [hs, saveHookStudent_classId]
  have hroll : s.ROLLNO = roll := by rw [hs, saveHookStudent_ROLLNO]
  have hfc' : findClass (addstudent db a cid n roll).2 cid = some c := by
    rw [hdb]; exact hfc
  have hfind' : findStudentByRoll (addstudent db a cid n roll).2 cid roll
      = some s := by
    rw [hdb]
    show (db.students ++ [s]).find? _ = some s
    rw [List.find?_append]
    have h1 : db.students.find?
        (fun t => t.classId == cid && t.ROLLNO == roll) = none := hdup
    rw [h1]
    simp [hclsid, hroll]
  have hdupEq := addstudent_dup_eq (n := n2) hfc' hcr hfind'
  refine ⟨?_, ?_, ?_⟩
  · rw [hdupEq]
  · rw [hdupEq]
  · intro hu
    rw [hdb]
    show (db.students ++ [s]).Pairwise _
    rw [List.pairwise_append]
    refine ⟨hu, List.pairwise_singleton _ _, ?_⟩
    intro t ht u hu'
    rcases List.mem_singleton.mp hu' with rfl
    intro ⟨hr, hc⟩
    have := List.find?_eq_none.mp hdup t ht
    rw [hroll] at hr
    rw [hclsid] at hc
    simp [hc, hr] at this

/-- C3 witness: adding Asha's roll number to the sample class a second
time is rejected as a duplicate and changes nothing. -/
theorem addstudent_duplicate_enrollment_witness :
    (addstudent sampleDB tOne 2 "Chi" 7).1
        = AddResult.added (saveHookStudent
          { id := 5, NAME := "Chi", ROLLNO := 7, classId := 2,
            CLASSES := [], EMAIL := none }) ∧
    (addstudent (addstudent sampleDB tOne 2 "Chi" 7).2 tOne 2 "Dee" 7).1
        = AddResult.duplicateRoll ∧
    (addstudent (addstudent sampleDB tOne 2 "Chi" 7).2 tOne 2 "Dee" 7).2
        = (addstudent sampleDB tOne 2 "Chi" 7).2 := by
  refine ⟨by decide, ?_, ?_⟩
  · exact (addstudent_duplicate_enrollment sampleDB tOne 2 "Chi" "Dee" 7
      (saveHookStudent
        { id := 5, NAME := "Chi", ROLLNO := 7, classId := 2,
          CLASSES := [], EMAIL := none }) (by decide)).1
  · exact (addstudent_duplicate_enrollment sampleDB tOne 2 "Chi" "Dee" 7
      (saveHookStudent
        { id := 5, NAME := "Chi", ROLLNO := 7, classId := 2,
          CLASSES := [], EMAIL := none }) (by decide)).2.1

/-- C4 counterexample: teacher tTwo is not in the sample class's teacher
set, and both access middlewares answer the 403 access-denied page, not
the 404 NotFound page that an unknown class id receives — so a teacher
outside the teacher set does not get the same externally visible outcome
as for a nonexistent class. -/
theorem classAccess_denied_is_403_counterexample :
    hasClassAccess sampleDB tTwo (some 2) = AccessDecision.forbidden ∧
    hasClassAccess sampleDB tTwo (some 2) ≠ AccessDecision.notFound ∧
    hasClassManagementAccess sampleDB tTwo (some 2)
      = AccessDecision.forbidden ∧
    hasClassAccess sampleDB tTwo (some 99) = AccessDecision.notFound := by
  decide

/-- C4 amended: an authenticated teacher who is not in an existing
class's teacher set receives the 403 access-denied outcome from both
hasClassAccess and hasClassManagementAccess — a differently shaped error
from the 404 NotFound outcome reserved for a class id that does not
exist. -/
theorem classAccess_denied_is_403 (db : DB) (u : UserRec) (cid : Nat)
    (c : ClassRec) (hfc : findClass db cid = some c)
    (hrole : u.ROLE = "teacher") (hmem : u.id ∉ c.TEACHERS) :
    hasClassAccess db u (some cid) = AccessDecision.forbidden ∧
    hasClassManagementAccess db u (some cid) = AccessDecision.forbidden ∧
    ∀ cid' : Nat, findClass db cid' = none →
      hasClassAccess db u (some cid') = AccessDecision.notFound := by
  refine ⟨?_, ?_, ?_⟩
  · simp [hasClassAccess, hfc, hrole, hmem]
  · simp [hasClassManagementAccess, hfc, hrole, hmem]
  · intro cid' hnone
    simp [hasClassAccess, hnone]

/-- C4 amended witness: the concrete outsider teacher on the sample
database. -/
theorem classAccess_denied_is_403_witness :
    findClass sampleDB 2 = some mathClass ∧
    tTwo.ROLE = "teacher" ∧
    tTwo.id ∉ mathClass.TEACHERS ∧
    hasClassAccess sampleDB tTwo (some 2) = AccessDecision.forbidden ∧
    hasClassManagementAccess sampleDB tTwo (some 2)
      = AccessDecision.forbidden := by
  refine ⟨by decide, by decide, by decide, ?_, ?_⟩
  · exact (classAccess_denied_is_403 sampleDB tTwo 2 mathClass (by decide)
      (by decide) (by decide)).1
  · exact (classAccess_denied_is_403 sampleDB tTwo 2 mathClass (by decide)
      (by decide) (by decide)).2.1

/-! ## Summary percentage facts -/

lemma toFixed2_nonneg {q : ℚ} (h0 : 0 ≤ q) : 0 ≤ toFixed2 q := by
  unfold toFixed2
  apply div_nonneg _ (by norm_num)
  have hz : (0 : ℤ) ≤ round (q * 100) := by
    rw [round_eq, Int.le_floor]
    push_cast
    linarith
  exact_mod_cast hz

lemma toFixed2_le_100 {q : ℚ} (h : q ≤ 100) : toFixed2 q ≤ 100 := by
  unfold toFixed2
  rw [div_le_iff₀ (by norm_num : (0:ℚ) < 100)]
  have hz : round (q * 100) ≤ 10000 := by
    by_contra hgt
    push_neg at hgt
    have h1 : ((10001 : ℤ) : ℚ) ≤ q * 100 + 1 / 2 := by
      rw [← Int.le_floor, ← round_eq]
      omega
    push_cast at h1
    linarith
  calc ((round (q * 100) : ℤ) : ℚ) ≤ ((10000 : ℤ) : ℚ) := by exact_mod_cast hz
    _ = 100 * 100 := by norm_num

lemma presentCount_le_totalCount (db : DB) (sid : Nat) :
    presentCount db sid ≤ totalCount db sid :=
  List.length_filter_le _ _

lemma pctOf_nonneg (p t : Nat) : 0 ≤ pctOf p t := by
  unfold pctOf
  split
  · apply toFixed2_nonneg
    positivity
  · exact le_refl 0

lemma pctOf_le_100 {p t : Nat} (h : p ≤ t) : pctOf p t ≤ 100 := by
  unfold pctOf
  split
  · next ht =>
    apply toFixed2_le_100
    rw [div_le_iff₀ (by exact_mod_cast ht : (0:ℚ) < (t:ℚ))]
    have : (p : ℚ) ≤ (t : ℚ) := by exact_mod_cast h
    linarith
  · norm_num

/-- C5 amended: the summary percentage for an enrollment row is the raw
ratio presentCount / totalCount x 100 rounded to two decimals by
toFixed(2); it always lies in [0, 100], is exactly 0 when totalCount is
0, and the bands compare the rounded value with the fixed 75 / 60
thresholds — so raw 74.999 percent (74999 of 100000) rounds to 75.00 and
classifies good, exact 75 percent classifies good, and 74.99 percent
classifies warning. -/
theorem summaryPct_bounds_and_bands (db : DB) (sid : Nat) :
    0 ≤ summaryPct db sid ∧ summaryPct db sid ≤ 100 ∧
    (totalCount db sid = 0 → summaryPct db sid = 0) ∧
    pctOf 74999 100000 = 75 ∧
    statusOf (pctOf 74999 100000) = "good" ∧
    statusOf (pctOf 3 4) = "good" ∧
    statusOf (pctOf 7499 10000) = "warning" := by
  refine ⟨pctOf_nonneg _ _, pctOf_le_100 (presentCount_le_totalCount db sid),
    ?_, ?_, ?_, ?_, ?_⟩
  · intro h0
    unfold summaryPct pctOf
    rw [h0]
    norm_num
  · norm_num [pctOf, toFixed2, round_eq]
  · norm_num [statusOf, pctOf, toFixed2, round_eq]
  · norm_num [statusOf, pctOf, toFixed2, round_eq]
  · norm_num [statusOf, pctOf, toFixed2, round_eq]

/-- C5 witness: on the sample database (no attendance yet) Asha's
summary percentage is defined and equal to 0. -/
theorem summaryPct_bounds_and_bands_witness :
    0 ≤ summaryPct sampleDB 3 ∧ summaryPct sampleDB 3 = 0 :=
  ⟨(summaryPct_bounds_and_bands sampleDB 3).1,
    (summaryPct_bounds_and_bands sampleDB 3).2.2.1 (by decide)⟩

/-- C5 counterexample: with 74999 present marks out of 100000 the raw
percentage is exactly 74.999, but the handler's displayed percentage is
the rounded 75.00 — not equal to the raw ratio — and the band computed
from it is good, not the warning the claim requires for 74.999. -/
theorem summaryPct_toFixed_counterexample :
    pctOf 74999 100000 ≠ (74999 : ℚ) * 100 / (100000 : ℚ) ∧
    statusOf (pctOf 74999 100000) = "good" ∧
    statusOf ((74999 : ℚ) * 100 / (100000 : ℚ)) = "warning" := by
  refine ⟨?_, ?_, ?_⟩
  · norm_num [pctOf, toFixed2, round_eq]
  · norm_num [statusOf, pctOf, toFixed2, round_eq]
  · norm_num [statusOf]

/-! ## Student deletion facts -/

/-- One attendance record for Asha in the sample class. -/
def ashaRec : AttendanceRec :=
  { studentId := 3, classId := 2, date := 20240110, status := "present",
    lectures := 1 }

/-- The sample database with one attendance record stored for Asha. -/
def sampleDBatt : DB := { sampleDB with attendance := [ashaRec] }

/-- C6 counterexample: deleting Asha (student id 3) from the sample
class succeeds, removes her enrollment row, and yet her attendance
record for the class is still stored afterwards — the handler performs
no cascade over Attendance. -/
theorem deletestudent_leaves_attendance_counterexample :
    (deletestudent sampleDBatt tOne 2 3).1 = DeleteResult.deleted ∧
    (∀ s ∈ (deletestudent sampleDBatt tOne 2 3).2.students, s.id ≠ 3) ∧
    (deletestudent sampleDBatt tOne 2 3).2.attendance = [ashaRec] ∧
    ashaRec.studentId = 3 ∧ ashaRec.classId = 2 := by
  decide

/-- C6 amended: a successful student deletion removes exactly the
enrollment rows bearing the student id and leaves the attendance
collection unchanged — attendance records for the removed (student,
class) pair survive. -/
theorem deletestudent_no_cascade (db : DB) (a : UserRec) (cid sid : Nat)
    (h : (deletestudent db a cid sid).1 = DeleteResult.deleted) :
    (deletestudent db a cid sid).2.students
        = db.students.filter (fun s => !(s.id == sid)) ∧
    (deletestudent db a cid sid).2.attendance = db.attendance := by
  rcases hfc : findClass db cid with _ | c
  · simp [deletestudent, hfc] at h
  · by_cases hcr : creatorOrAdmin a c = true
    · constructor
      · simp [deletestudent, hfc, hcr]
      · simp [deletestudent, hfc, hcr]
    · simp [deletestudent, hfc, hcr] at h

/-- C6 amended witness: the concrete deletion of Asha on the sample
database with attendance. -/
theorem deletestudent_no_cascade_witness :
    (deletestudent sampleDBatt tOne 2 3).2.students
        = sampleDBatt.students.filter (fun s => !(s.id == 3)) ∧
    (deletestudent sampleDBatt tOne 2 3).2.attendance
        = sampleDBatt.attendance :=
  deletestudent_no_cascade sampleDBatt tOne 2 3 (by decide)

/-! ## Class code generation facts -/

/-- The (class id, join-code) column of the registry. -/
def classCodes (db : DB) : List (Nat × String) :=
  db.classes.map (fun c => (c.id, c.CLASSCODE))

/-- Global uniqueness of join-codes. -/
def codesUnique (db : DB) : Prop := (takenCodes db).Nodup

lemma mkCode_length (draws : List Nat) : (mkCode draws).length = 6 := by
  show (((draws.take 6) ++ List.replicate (6 - draws.length) 0).map _).length = 6
  rw [List.length_map, List.length_append, List.length_take,
    List.length_replicate]
  omega

lemma mkCode_chars (draws : List Nat) :
    ∀ ch ∈ (mkCode draws).data, ch ∈ codeChars := by
  intro ch hch
  rcases List.mem_map.mp hch with ⟨r, _, rfl⟩
  have hlt : r % codeChars.length < codeChars.length :=
    Nat.mod_lt _ (by decide)
  rw [List.getD_eq_getElem _ _ hlt]
  exact List.getElem_mem hlt

lemma genUniqueCode_spec {taken : List String} {attempts : List (List Nat)}
    {code : String} (h : genUniqueCode taken attempts = some code) :
    (∃ draws, code = mkCode draws) ∧ code ∉ taken := by
  induction attempts with
  | nil => simp [genUniqueCode] at h
  | cons draws rest ih =>
    by_cases hmem : mkCode draws ∈ taken
    · simp only [genUniqueCode, if_pos hmem] at h
      exact ih h
    · simp only [genUniqueCode, if_neg hmem, Option.some_inj] at h
      exact ⟨⟨draws, h.symm⟩, h ▸ hmem⟩

lemma createclass_ok_inv {db : DB} {a : UserRec} {name : String} {room : Nat}
    {subj descr : String} {attempts : List (List Nat)} {c : ClassRec}
    (h : (createclass db a name room subj descr attempts).1
      = CreateClassResult.ok c) :
    genUniqueCode (takenCodes db) attempts = some c.CLASSCODE ∧
    (createclass db a name room subj descr attempts).2
      = { db with classes := db.classes ++ [c], nextId := db.nextId + 1 } := by
  rcases hg : genUniqueCode (takenCodes db) attempts with _ | code
  · simp [createclass, hg] at h
  · have hc : c = mkClassRec db a name room subj descr code := by
      have := h
      simp [createclass, hg] at this
      exact this.symm
    constructor
    · rw [hc]; rfl
    · simp [createclass, hg, hc]

/-! ## Operations do not touch join-codes -/

lemma addstudent_classes (db : DB) (a : UserRec) (cid : Nat) (n : String)
    (roll : Nat) : ((addstudent db a cid n roll).2).classes = db.classes := by
  rcases hfc : findClass db cid with _ | c
  · simp [addstudent, hfc]
  · by_cases hcr : creatorOrAdmin a c = true
    · rcases hdup : findStudentByRoll db cid roll with _ | t
      · simp [addstudent, hfc, hcr, hdup]
      · simp [addstudent, hfc, hcr, hdup]
    · simp [addstudent, hfc, hcr]

lemma addBulkLoop_classes (cid : Nat) (rows : List BulkStudentInput)
    (db : DB) (acc : BulkAddReply) :
    ((addBulkLoop cid rows db acc).2).classes = db.classes := by
  induction rows generalizing db acc with
  | nil => rfl
  | cons row rest ih =>
    rcases hdup : findStudentByRoll db cid row.ROLLNO with _ | t
    · rw [addBulkLoop, hdup]
      rw [ih]
    · rw [addBulkLoop, hdup]
      exact ih db _

lemma addbulkstudents_classes (db : DB) (a : UserRec) (cid : Nat)
    (rows : List BulkStudentInput) :
    ((addbulkstudents db a cid rows).2).classes = db.classes := by
  rcases hfc : findClass db cid with _ | c
  · simp [addbulkstudents, hfc]
  · by_cases hcr : creatorOrAdmin a c = true
    · simp [addbulkstudents, hfc, hcr, addBulkLoop_classes]
    · simp [addbulkstudents, hfc, hcr]

lemma deletestudent_classes (db : DB) (a : UserRec) (cid sid : Nat) :
    ((deletestudent db a cid sid).2).classes = db.classes := by
  rcases hfc : findClass db cid with _ | c
  · simp [deletestudent, hfc]
  · by_cases hcr : creatorOrAdmin a c = true
    · simp [deletestudent, hfc, hcr]
    · simp [deletestudent, hfc, hcr]

lemma register_classes (db : DB) (i : RegInput) :
    ((register db i).2).classes = db.classes := by
  unfold register
  split
  · rfl
  · split
    · rfl
    · split
      · rfl
      · split
        · rfl
        · rfl

lemma joinclass_classCodes (db : DB) (a : UserRec) (code : String) :
    classCodes ((joinclass db a code).2) = classCodes db := by
  unfold joinclass
  split
  · rfl
  · split
    · rfl
    · next c heq =>
      split
      · rfl
      · show classCodes _ = classCodes db
        unfold classCodes
        show (db.classes.map _).map _ = _
        rw [List.map_map]
        apply List.map_congr_left
        intro k _
        by_cases hid : (k.id == c.id) = true
        · simp [Function.comp, hid]
        · simp [Function.comp, hid]

/-- C7: a created class's join-code is a 6-character string over A-Z0-9
(hence matches [A-Z0-9]\x7b6,8\x7d), is distinct from every existing
class's code (the hook resamples on collision), global code uniqueness
is preserved, and no other embedded operation — joining a class, adding
or deleting students, bulk-adding, bulk attendance marking,
registration — ever changes any class's join-code. -/
theorem createclass_joincode_invariant (db : DB) (a : UserRec)
    (name : String) (room : Nat) (subj descr : String)
    (attempts : List (List Nat)) (c : ClassRec)
    (h : (createclass db a name room subj descr attempts).1
      = CreateClassResult.ok c) :
    6 ≤ c.CLASSCODE.length ∧ c.CLASSCODE.length ≤ 8 ∧
    (∀ ch ∈ c.CLASSCODE.data, ch ∈ codeChars) ∧
    c.CLASSCODE ∉ takenCodes db ∧
    (codesUnique db →
      codesUnique (createclass db a name room subj descr attempts).2) ∧
    classCodes (createclass db a name room subj descr attempts).2
      = classCodes db ++ [(c.id, c.CLASSCODE)] ∧
    (∀ (db' : DB) (a' : UserRec) (code' : String),
      classCodes ((joinclass db' a' code').2) = classCodes db') ∧
    (∀ (db' : DB) (a' : UserRec) (cid : Nat) (n : String) (roll : Nat),
      ((addstudent db' a' cid n roll).2).classes = db'.classes) ∧
    (∀ (db' : DB) (a' : UserRec) (cid : Nat) (rows : List BulkStudentInput),
      ((addbulkstudents db' a' cid rows).2).classes = db'.classes) ∧
    (∀ (db' : DB) (a' : UserRec) (cid sid : Nat),
      ((deletestudent db' a' cid sid).2).classes = db'.classes) ∧
    (∀ (db' : DB) (a' : UserRec) (cid d l : Nat) (m : Nat → Option String),
      ((markattendanceBulk db' a' cid d l m).2).classes = db'.classes) ∧
    (∀ (db' : DB) (i : RegInput),
      ((register db' i).2).classes = db'.classes) := by
  rcases createclass_ok_inv h with ⟨hg, hdb2⟩
  rcases genUniqueCode_spec hg with ⟨⟨draws, hdraws⟩, hnot⟩
  have hlen : c.CLASSCODE.length = 6 := by rw [hdraws, mkCode_length]
  refine ⟨by omega, by omega, ?_, hnot, ?_, ?_,
    joinclass_classCodes, addstudent_classes, addbulkstudents_classes,
    deletestudent_classes, markBulk_classes, register_classes⟩
  · rw [hdraws]
    exact mkCode_chars draws
  · intro hu
    have htk : takenCodes (createclass db a name room subj descr attempts).2
        = takenCodes db ++ [c.CLASSCODE] := by
      rw [hdb2]
      simp [takenCodes]
    rw [codesUnique, htk, List.nodup_append]
    refine ⟨hu, List.nodup_singleton _, ?_⟩
    intro x hx hx2
    rw [List.mem_singleton] at hx2
    subst hx2
    exact hnot hx
  · rw [hdb2]
    simp [classCodes]

/-- C7 witness: creating a class on the sample database with one sampled
attempt yields the fresh 6-character code ABCDEF, absent from the
existing codes. -/
theorem createclass_joincode_invariant_witness :
    6 ≤ (mkClassRec sampleDB tOne "Sci" 1 "Sci" "" "ABCDEF").CLASSCODE.length ∧
    (mkClassRec sampleDB tOne "Sci" 1 "Sci" "" "ABCDEF").CLASSCODE.length ≤ 8 ∧
    (mkClassRec sampleDB tOne "Sci" 1 "Sci" "" "ABCDEF").CLASSCODE
      ∉ takenCodes sampleDB := by
  have hth := createclass_joincode_invariant sampleDB tOne "Sci" 1 "Sci" ""
    [[0, 1, 2, 3, 4, 5]] (mkClassRec sampleDB tOne "Sci" 1 "Sci" "" "ABCDEF")
    (by decide)
  exact ⟨hth.1, hth.2.1, hth.2.2.2.1⟩

/-! ## Bulk add outcome facts -/

lemma addBulkLoop_count (cid : Nat) (rows : List BulkStudentInput) (db : DB)
    (acc : BulkAddReply) :
    ((addBulkLoop cid rows db acc).1).addedStudents.length
        + ((addBulkLoop cid rows db acc).1).errors.length
      = acc.addedStudents.length + acc.errors.length + rows.length := by
  induction rows generalizing db acc with
  | nil => simp [addBulkLoop]
  | cons row rest ih =>
    rcases hdup : findStudentByRoll db cid row.ROLLNO with _ | t
    · rw [addBulkLoop, hdup]
      rw [ih]
      simp
      omega
    · rw [addBulkLoop, hdup]
      rw [ih]
      simp
      omega

lemma addBulkLoop_errors_dup (cid : Nat) (rows : List BulkStudentInput)
    (db : DB) (acc : BulkAddReply) :
    ∀ msg ∈ ((addBulkLoop cid rows db acc).1).errors,
      msg ∈ acc.errors ∨ ∃ roll, msg = dupMessage roll := by
  induction rows generalizing db acc with
  | nil =>
    intro msg hmsg
    exact Or.inl hmsg
  | cons row rest ih =>
    intro msg hmsg
    rcases hdup : findStudentByRoll db cid row.ROLLNO with _ | t
    · simp only [addBulkLoop, hdup] at hmsg
      rcases ih _ _ msg hmsg with h1 | h2
      · exact Or.inl h1
      · exact Or.inr h2
    · simp only [addBulkLoop, hdup] at hmsg
      rcases ih db _ msg hmsg with hin | hd
      · rcases List.mem_append.mp hin with h1 | h2
        · exact Or.inl h1
        · exact Or.inr ⟨row.ROLLNO, List.mem_singleton.mp h2⟩
      · exact Or.inr hd

/-- The student row the mixed-batch scenario adds for fresh roll 3. -/
def addedA : StudentRec :=
  { id := 5, NAME := "A", ROLLNO := 3, classId := 2, CLASSES := [2],
    EMAIL := none }

/-- The reply of the mixed-batch scenario: one added, one duplicate. -/
def mixedReply : BulkAddReply :=
  { addedStudents := [addedA], errors := [dupMessage 1] }

/-- The mixed batch: fresh roll 3 and already-enrolled roll 1. -/
def mixedBatch : List BulkStudentInput :=
  [{ NAME := "A", ROLLNO := 3 }, { NAME := "B", ROLLNO := 1 }]

lemma addbulkstudents_ok_inv {db : DB} {a : UserRec} {cid : Nat}
    {rows : List BulkStudentInput} {reply : BulkAddReply}
    (h : (addbulkstudents db a cid rows).1 = BulkAddResult.ok reply) :
    reply = (addBulkLoop cid rows db
      { addedStudents := [], errors := [] }).1 := by
  rcases hfc : findClass db cid with _ | c
  · simp [addbulkstudents, hfc] at h
  · by_cases hcr : creatorOrAdmin a c = true
    · have := h
      simp [addbulkstudents, hfc, hcr] at this
      exact this.symm
    · simp [addbulkstudents, hfc, hcr] at h

/-- C8: a successful bulk student add returns one outcome per input row
— the added rows and the error rows exactly partition the batch — and
every error message is the per-row duplicate message, never an overall
failure; concretely, a batch of one fresh roll number and one roll
number already enrolled yields one added student and exactly one
duplicate message. -/
theorem addbulkstudents_per_row_outcomes (db : DB) (a : UserRec) (cid : Nat)
    (rows : List BulkStudentInput) (reply : BulkAddReply)
    (h : (addbulkstudents db a cid rows).1 = BulkAddResult.ok reply) :
    reply.addedStudents.length + reply.errors.length = rows.length ∧
    (∀ msg ∈ reply.errors, ∃ roll, msg = dupMessage roll) ∧
    (addbulkstudents sampleDB tOne 2 mixedBatch).1
      = BulkAddResult.ok mixedReply := by
  have hrw := addbulkstudents_ok_inv h
  refine ⟨?_, ?_, by decide⟩
  · rw [hrw]
    have := addBulkLoop_count cid rows db { addedStudents := [], errors := [] }
    simpa using this
  · intro msg hmsg
    rw [hrw] at hmsg
    rcases addBulkLoop_errors_dup cid rows db
        { addedStudents := [], errors := [] } msg hmsg with hin | hd
    · simp at hin
    · exact hd

/-- C8 witness: the concrete mixed batch on the sample database — roll 3
is fresh, roll 1 belongs to Asha already — produces one added and one
duplicate outcome. -/
theorem addbulkstudents_per_row_outcomes_witness :
    (addbulkstudents sampleDB tOne 2 mixedBatch).1
      = BulkAddResult.ok mixedReply ∧
    mixedReply.addedStudents.length + mixedReply.errors.length
      = mixedBatch.length := by
  have hth := addbulkstudents_per_row_outcomes sampleDB tOne 2 mixedBatch
    mixedReply (by decide)
  exact ⟨hth.2.2, hth.1⟩

/-! ## Primary-class membership invariant -/

/-- Every stored enrollment row lists its primary class in its CLASSES
membership set. -/
def studentsWellFormed (db : DB) : Prop :=
  ∀ s ∈ db.students, s.classId ∈ s.CLASSES

lemma saveHookStudent_mem (s : StudentRec) :
    (saveHookStudent s).classId ∈ (saveHookStudent s).CLASSES := by
  unfold saveHookStudent
  split
  · next h => exact h
  · exact List.mem_append.mpr (Or.inr (List.mem_singleton.mpr rfl))

lemma wf_append_hook {db : DB} (hwf : studentsWellFormed db)
    (r : StudentRec) :
    studentsWellFormed
      { db with
        students := db.students ++ [saveHookStudent r]
        nextId := db.nextId + 1 } := by
  intro s hs
  rcases List.mem_append.mp hs with hold | hnew
  · exact hwf s hold
  · rw [List.mem_singleton.mp hnew]
    exact saveHookStudent_mem r

lemma addstudent_wf {db : DB} (hwf : studentsWellFormed db) (a : UserRec)
    (cid : Nat) (n : String) (roll : Nat) :
    studentsWellFormed (addstudent db a cid n roll).2 := by
  rcases hfc : findClass db cid with _ | c
  · simp only [addstudent, hfc]
    exact hwf
  · by_cases hcr : creatorOrAdmin a c = true
    · rcases hdup : findStudentByRoll db cid roll with _ | t
      · simp only [addstudent, hfc, hcr, if_true, hdup]
        exact wf_append_hook hwf _
      · simp only [addstudent, hfc, hcr, if_true, hdup]
        exact hwf
    · simp only [addstudent, hfc]
      rw [if_neg hcr]
      exact hwf

lemma addBulkLoop_wf {db : DB} (hwf : studentsWellFormed db) (cid : Nat)
    (rows : List BulkStudentInput) (acc : BulkAddReply) :
    studentsWellFormed (addBulkLoop cid rows db acc).2 := by
  induction rows generalizing db acc with
  | nil => exact hwf
  | cons row rest ih =>
    rcases hdup : findStudentByRoll db cid row.ROLLNO with _ | t
    · simp only [addBulkLoop, hdup]
      exact ih (wf_append_hook hwf _) _
    · simp only [addBulkLoop, hdup]
      exact ih hwf _

lemma addbulkstudents_wf {db : DB} (hwf : studentsWellFormed db)
    (a : UserRec) (cid : Nat) (rows : List BulkStudentInput) :
    studentsWellFormed (addbulkstudents db a cid rows).2 := by
  rcases hfc : findClass db cid with _ | c
  · simp only [addbulkstudents, hfc]
    exact hwf
  · by_cases hcr : creatorOrAdmin a c = true
    · simp only [addbulkstudents, hfc, hcr, if_true]
      exact addBulkLoop_wf hwf cid rows _
    · simp only [addbulkstudents, hfc]
      rw [if_neg hcr]
      exact hwf

lemma deletestudent_wf {db : DB} (hwf : studentsWellFormed db)
    (a : UserRec) (cid sid : Nat) :
    studentsWellFormed (deletestudent db a cid sid).2 := by
  rcases hfc : findClass db cid with _ | c
  · simp only [deletestudent, hfc]
    exact hwf
  · by_cases hcr : creatorOrAdmin a c = true
    · simp only [deletestudent, hfc, hcr, if_true]
      intro s hs
      exact hwf s (List.mem_of_mem_filter hs)
    · simp only [deletestudent, hfc]
      rw [if_neg hcr]
      exact hwf

lemma joinclass_students (db : DB) (a : UserRec) (code : String) :
    ((joinclass db a code).2).students = db.students := by
  unfold joinclass
  split
  · rfl
  · split
    · rfl
    · split
      · rfl
      · rfl

lemma register_students (db : DB) (i : RegInput) :
    ((register db i).2).students = db.students := by
  unfold register
  split
  · rfl
  · split
    · rfl
    · split
      · rfl
      · split
        · rfl
        · rfl

lemma createclass_students (db : DB) (a : UserRec) (name : String)
    (room : Nat) (subj descr : String) (attempts : List (List Nat)) :
    ((createclass db a name room subj descr attempts).2).students
      = db.students := by
  unfold createclass
  split
  · rfl
  · rfl

/-- C9: the pre-save hook puts the primary classId into CLASSES, so on a
well-formed database every embedded operation — adding a student,
bulk-adding, deleting, bulk attendance marking, registration, joining or
creating a class — again yields only student rows whose membership set
contains their primary class. -/
theorem primary_class_in_membership_invariant (db : DB)
    (hwf : studentsWellFormed db) :
    (∀ s : StudentRec,
      (saveHookStudent s).classId ∈ (saveHookStudent s).CLASSES) ∧
    (∀ (a : UserRec) (cid : Nat) (n : String) (roll : Nat),
      studentsWellFormed (addstudent db a cid n roll).2) ∧
    (∀ (a : UserRec) (cid : Nat) (rows : List BulkStudentInput),
      studentsWellFormed (addbulkstudents db a cid rows).2) ∧
    (∀ (a : UserRec) (cid sid : Nat),
      studentsWellFormed (deletestudent db a cid sid).2) ∧
    (∀ (a : UserRec) (cid d l : Nat) (m : Nat → Option String),
      studentsWellFormed (markattendanceBulk db a cid d l m).2) ∧
    (∀ i : RegInput, studentsWellFormed (register db i).2) ∧
    (∀ (a : UserRec) (code : String),
      studentsWellFormed (joinclass db a code).2) ∧
    (∀ (a : UserRec) (name : String) (room : Nat) (subj descr : String)
        (attempts : List (List Nat)),
      studentsWellFormed (createclass db a name room subj descr attempts).2) := by
  refine ⟨saveHookStudent_mem, fun a cid n roll => addstudent_wf hwf a cid n roll,
    fun a cid rows => addbulkstudents_wf hwf a cid rows,
    fun a cid sid => deletestudent_wf hwf a cid sid, ?_, ?_, ?_, ?_⟩
  · intro a cid d l m
    unfold studentsWellFormed
    rw [markBulk_students]
    exact hwf
  · intro i
    unfold studentsWellFormed
    rw [register_students]
    exact hwf
  · intro a code
    unfold studentsWellFormed
    rw [joinclass_students]
    exact hwf
  · intro a name room subj descr attempts
    unfold studentsWellFormed
    rw [createclass_students]
    exact hwf

/-- C9 witness: the invariant holds on the sample database and survives
adding a concrete fresh student. -/
theorem primary_class_in_membership_invariant_witness :
    studentsWellFormed (addstudent sampleDB tOne 2 "Eve" 8).2 :=
  (primary_class_in_membership_invariant sampleDB
    (by
      show ∀ s ∈ sampleDB.students, s.classId ∈ s.CLASSES
      decide)).2.1 tOne 2 "Eve" 8

/-! ## Registration role facts -/

/-- A registration request asking for the student role. -/
def regStudent : RegInput :=
  { USERNAME := "s1", EMAIL := "s1@x.y", PASSWORD := "abcdef",
    CONFIRMPASSWORD := "abcdef", FULLNAME := "S", ROLE := "student" }

/-- C10: public registration never creates a non-teacher account: a
request whose role is not teacher is answered with an error message and
leaves the store unchanged, and every user present after any
registration either already existed or has role teacher. -/
theorem register_only_creates_teachers (db : DB) (i : RegInput) :
    (i.ROLE ≠ "teacher" →
      (∃ m, (register db i).1 = RegResult.errorMsg m) ∧
      (register db i).2 = db) ∧
    (∀ u ∈ ((register db i).2).users, u ∈ db.users ∨ u.ROLE = "teacher") := by
  constructor
  · intro hrole
    unfold register
    split
    · exact ⟨⟨_, rfl⟩, rfl⟩
    · split
      · exact ⟨⟨_, rfl⟩, rfl⟩
      · split
        · exact ⟨⟨_, rfl⟩, rfl⟩
        · exact ⟨⟨_, rfl⟩, rfl⟩
  · intro u
    show u ∈ ((register db i).2).users → _
    unfold register
    split
    · exact fun hu => Or.inl hu
    · split
      · exact fun hu => Or.inl hu
      · split
        · exact fun hu => Or.inl hu
        · split
          · exact fun hu => Or.inl hu
          · intro hu
            rcases List.mem_append.mp hu with hold | hnew
            · exact Or.inl hold
            · rw [List.mem_singleton.mp hnew]
              exact Or.inr rfl

/-- C10 witness: registering with role student on the sample database is
rejected with an error and creates no account. -/
theorem register_only_creates_teachers_witness :
    (∃ m, (register sampleDB regStudent).1 = RegResult.errorMsg m) ∧
    (register sampleDB regStudent).2 = sampleDB :=
  (register_only_creates_teachers sampleDB regStudent).1 (by decide)

end AttendPro
